import Mathlib

/-!
# Shallow embedding of the bot process supervisor in `app.py`

This file models, directly from the source of `app.py`, the parts of the
program that the specification's claims are about:

* the output scanner `read_output` and `LogInterceptor.__call__`
  (marker detection and URL extraction),
* the URL queue (`queue.Queue`: `put`, `get_nowait`, draining),
* `run_bot` (environment check, spawn, poll loop with timeout,
  exception handling that returns `(None, None)`),
* the process registry `bot_procs` together with `cleanup_process`,
  `cleanup`, the `/api/status/{pid}` handler `get_status`, and the
  `/api/get-room-url` handler `get_room_url`.

Strings are modelled as `List Char` where character-level processing is
needed (Python `strip`, `split`, `in`), and as `String` where values are
only moved around or compared.  Real time in `run_bot`'s poll loop is
discretized in units of one check interval (`check_interval = 0.5`,
`timeout = 25`, hence at most 50 poll iterations).
-/

/-- The marker prefix the scanner looks for (`"Join the video call at:"`). -/
def markerL : List Char := "Join the video call at:".toList

/-- Python `str.strip` character class: ASCII whitespace. -/
def isPySpace (c : Char) : Bool :=
  c = ' ' || c = '\t' || c = '\n' || c = '\r' || c = '\x0b' || c = '\x0c'

/-- Drop leading whitespace characters. -/
def trimLeftL : List Char → List Char
  | [] => []
  | c :: rest => if isPySpace c then trimLeftL rest else c :: rest

/-- Python `s.strip()`: remove leading and trailing whitespace. -/
def trimL (s : List Char) : List Char :=
  (trimLeftL (trimLeftL s).reverse).reverse

/-- The text strictly after the LAST occurrence of `pat` in `s`, or `none`
when `pat` does not occur.  `afterLast pat s = some t` is exactly Python's
`pat in s` test together with `s.split(pat)[-1] = t` (for nonempty `pat`,
`split(pat)[-1]` is the segment after the last occurrence). -/
def afterLast (pat : List Char) : List Char → Option (List Char)
  | [] => none
  | c :: rest =>
    match afterLast pat rest with
    | some t => some t
    | none =>
      if pat.isPrefixOf (c :: rest) then some ((c :: rest).drop pat.length)
      else none

/-- `read_output` body for a single line (app.py lines 96-108):
`clean_line = line.strip()`; if the marker is in `clean_line`,
`url = clean_line.split(marker)[-1].strip()` is produced (and put on the
queue), otherwise nothing is produced. -/
def read_output_extract (line : List Char) : Option (List Char) :=
  let cleanLine := trimL line
  match afterLast markerL cleanLine with
  | some tail => some (trimL tail)
  | none => none

/-- `LogInterceptor.__call__` for a string message (app.py lines 39-49):
same marker test and extraction, but on the raw message (no preliminary
`strip` of the whole message). -/
def log_interceptor_extract (message : List Char) : Option (List Char) :=
  match afterLast markerL message with
  | some tail => some (trimL tail)
  | none => none

/-- The URL queue (`url_queue = queue.Queue()`): an unbounded FIFO,
modelled as the list of queued values, oldest first. -/
abbrev UrlQueue : Type := List (List Char)

/-- `queue.Queue.put`: append at the back. -/
def UrlQueue.put (q : UrlQueue) (v : List Char) : UrlQueue := q ++ [v]

/-- `queue.Queue.get_nowait`: take the front element if any
(`none` models the `queue.Empty` exception). -/
def UrlQueue.getNowait (q : UrlQueue) : Option (List Char) × UrlQueue :=
  match q with
  | [] => (none, [])
  | x :: xs => (some x, xs)

/-- One `read_output` loop iteration on a queue: put the extracted URL,
if any, otherwise leave the queue alone. -/
def read_output_step (q : UrlQueue) (line : List Char) : UrlQueue :=
  match read_output_extract line with
  | some u => q.put u
  | none => q

/-! ## `run_bot` (app.py lines 51-147) -/

/-- The environment variables `run_bot` requires (app.py lines 58-65). -/
def required_vars : List String :=
  ["TAVUS_API_KEY", "TAVUS_REPLICA_ID", "OPENAI_API_KEY",
   "DEEPGRAM_API_KEY", "CARTESIA_API_KEY", "FIREBASE_CREDENTIALS"]

/-- An environment is the list of variable names that are set to truthy
(non-empty) values; `not os.getenv(var)` is modelled as non-membership. -/
abbrev Env : Type := List String

/-- The variables missing from the environment (app.py line 67). -/
def missing_vars (env : Env) : List String :=
  required_vars.filter (fun v => !(env.contains v))

/-- What the spawned worker does, as observed by `run_bot`'s poll loop.
Time is discretized in check intervals (0.5 time units). -/
structure WorkerBehavior where
  /-- Earliest poll iteration at which `proc.poll()` reports the worker
  exited, `none` if it outlives the whole wait. -/
  exitStep : Option Nat
  /-- The worker's exit code, read when `exitStep` is reached. -/
  exitCode : Int
  /-- Earliest poll iteration at which the scanner threads have put the
  room URL on `url_queue`, `none` if no marker line is ever produced. -/
  urlStep : Option Nat
  /-- The URL the scanner extracted. -/
  url : String
  /-- Whether the worker exits between the first `proc.terminate()` of the
  timeout path and the `proc.poll()` in the `except` handler, so that the
  handler's second `terminate` is skipped. -/
  diesOnTerm : Bool
  deriving DecidableEq

/-- `timeout = 25` with `check_interval = 0.5`: at most 50 poll iterations
(the loop runs while `time.time() - start_time < timeout`). -/
def timeoutSteps : Nat := 50

/-- `some n ≤ i`, with `none` never reached. -/
def stepReached (o : Option Nat) (i : Nat) : Bool :=
  match o with
  | some n => n ≤ i
  | none => false

/-- Outcome of the poll loop. -/
inductive LoopResult where
  | exited
  | gotUrl
  | timedOut
  deriving DecidableEq

/-- The `while time.time() - start_time < timeout` loop (app.py lines
118-136): each iteration first checks `proc.poll()`, then tries
`url_queue.get_nowait()`, then sleeps one check interval. -/
def waitLoop (w : WorkerBehavior) : Nat → Nat → LoopResult
  | 0, _ => .timedOut
  | fuel + 1, i =>
    if stepReached w.exitStep i then .exited
    else if stepReached w.urlStep i then .gotUrl
    else waitLoop w fuel (i + 1)

/-- The poll loop run from iteration 0 with the full timeout budget. -/
def loopOutcome (w : WorkerBehavior) : LoopResult :=
  waitLoop w timeoutSteps 0

/-- The exceptions raised (and then caught at app.py line 143) inside
`run_bot`. -/
inductive BotError where
  /-- `ValueError` for missing environment variables (line 69). -/
  | missingEnv (vars : List String)
  /-- `RuntimeError("Bot process exited unexpectedly with code …")`
  (line 127). -/
  | exitedUnexpectedly (code : Int)
  /-- `TimeoutError("Timeout waiting for room URL")` (line 141). -/
  | timeoutWaitingForUrl
  deriving DecidableEq

/-- Everything observable about one `run_bot` call: the value returned to
the caller, the exception raised and caught internally, and the process
side effects performed on the worker. -/
structure RunBotOutcome where
  /-- The value `run_bot` returns: `some (url, pid)` on success, `none`
  for the `(None, None)` of the `except` handler (line 147). -/
  ret : Option (String × Nat)
  /-- The exception raised inside the `try` body and caught at line 143;
  it is never propagated to the caller. -/
  internalError : Option BotError
  /-- Whether `subprocess.Popen` was called (line 81). -/
  spawned : Bool
  /-- Whether the pid was stored in `bot_procs` (line 93). -/
  registered : Bool
  /-- How many times `proc.terminate()` was invoked (lines 140, 146). -/
  terminateCalls : Nat
  /-- Whether `run_bot` waited for the worker's actual exit before
  returning (only `proc.communicate()` on the already-exited branch,
  line 124, does). -/
  waitedForExit : Bool
  /-- Whether `run_bot` closed the worker's stdout/stderr pipes before
  returning (it never does; only `cleanup_process` closes them). -/
  closedStreams : Bool
  deriving DecidableEq

/-- `run_bot(room_url, token)` (app.py lines 51-147).  `pid` is the
operating-system pid `Popen` assigns; `roomUrl` only affects the spawned
command line (lines 72-76), never the control flow. -/
def run_bot (env : Env) (roomUrl : Option String) (pid : Nat)
    (w : WorkerBehavior) : RunBotOutcome :=
  if (missing_vars env).isEmpty then
    match loopOutcome w with
    | .gotUrl =>
      -- line 133: `return url, proc.pid`; worker left running
      { ret := some (w.url, pid), internalError := none, spawned := true,
        registered := true, terminateCalls := 0, waitedForExit := false,
        closedStreams := false }
    | .exited =>
      -- lines 120-127: poll() not None, communicate() reaps the dead
      -- worker, RuntimeError raised; the except handler sees poll() not
      -- None and does not terminate (lines 145-146); returns (None, None)
      { ret := none, internalError := some (.exitedUnexpectedly w.exitCode),
        spawned := true, registered := true, terminateCalls := 0,
        waitedForExit := true, closedStreams := false }
    | .timedOut =>
      -- lines 139-141: terminate() then TimeoutError; the except handler
      -- terminates once more when poll() is still None (lines 145-146);
      -- returns (None, None) without waiting for the exit
      { ret := none, internalError := some .timeoutWaitingForUrl,
        spawned := true, registered := true,
        terminateCalls := if w.diesOnTerm then 1 else 2,
        waitedForExit := false, closedStreams := false }
  else
    -- lines 67-69: ValueError before any spawn, caught at 143; `proc` is
    -- None so the handler does not terminate anything; returns (None, None)
    { ret := none, internalError := some (.missingEnv (missing_vars env)),
      spawned := false, registered := false, terminateCalls := 0,
      waitedForExit := false, closedStreams := false }

/-! ## The process registry `bot_procs` and `cleanup_process` / `cleanup`
(app.py lines 32, 149-173) -/

/-- One registered `subprocess.Popen` object as `cleanup_process` and
`get_status` observe it. -/
structure ProcEntry where
  /-- Key in `bot_procs`. -/
  pid : Nat
  /-- Whether the OS-level process is currently running
  (`proc.poll() is None`). -/
  alive : Bool
  /-- Whether the process exits within the 5-unit grace period after a
  graceful stop signal (`proc.wait(timeout=5)` succeeding). -/
  diesWithinGrace : Bool
  /-- Whether the stdout/stderr pipes are still open. -/
  streamsOpen : Bool
  deriving DecidableEq

/-- `bot_procs`: the mapping pid → process, modelled as a list of entries
(insertion order; pids act as the keys). -/
abbrev Registry : Type := List ProcEntry

/-- The signals `cleanup_process` ends up sending and the waits it
performs, for one call. -/
structure CleanupEffect where
  /-- Graceful stop signals actually delivered to a live process
  (`Popen.terminate`; `send_signal` polls first and is a no-op on an
  already-exited process, CPython ≥ 3.9 — and on older versions the
  unreaped zombie still holds the pid, so no signal can reach a reused
  pid either way). -/
  termSignals : Nat
  /-- Force kills actually delivered (`proc.kill()` after
  `TimeoutExpired`). -/
  killSignals : Nat
  /-- Whether the call waited for the process's actual exit
  (`proc.wait(...)`). -/
  waitedForExit : Bool
  /-- Whether the `finally` block closed the stdout/stderr pipes. -/
  closedStreams : Bool
  /-- Whether the process is certainly not running when the call returns. -/
  exitedOnReturn : Bool
  /-- Whether the call raised an error to its caller (it never does: all
  exceptions are caught and logged, lines 162-163). -/
  errored : Bool
  deriving DecidableEq

/-- The effect of a `cleanup_process` call whose `pop` found no entry:
`proc` is `None`, nothing at all happens. -/
def CleanupEffect.noop : CleanupEffect :=
  { termSignals := 0, killSignals := 0, waitedForExit := false,
    closedStreams := false, exitedOnReturn := false, errored := false }

/-- `cleanup_process(pid)` (app.py lines 149-168): `bot_procs.pop(pid,
None)`; if a process was registered, `terminate()`, `wait(timeout=5)`,
on `TimeoutExpired` `kill()` then `wait()`, and in `finally` close the
pipes.  Returns the registry after the `pop` and the observable effect. -/
def cleanup_process (reg : Registry) (pid : Nat) : Registry × CleanupEffect :=
  match reg.find? (fun e => e.pid = pid) with
  | none => (reg, CleanupEffect.noop)
  | some e =>
    let reg' := reg.filter (fun x => x.pid ≠ pid)
    if !e.alive then
      -- terminate() polls and skips the signal; wait(5) returns at once
      (reg', { termSignals := 0, killSignals := 0, waitedForExit := true,
               closedStreams := true, exitedOnReturn := true,
               errored := false })
    else if e.diesWithinGrace then
      (reg', { termSignals := 1, killSignals := 0, waitedForExit := true,
               closedStreams := true, exitedOnReturn := true,
               errored := false })
    else
      -- wait(timeout=5) raises TimeoutExpired: kill() then wait()
      (reg', { termSignals := 1, killSignals := 1, waitedForExit := true,
               closedStreams := true, exitedOnReturn := true,
               errored := false })

/-- `cleanup()` (app.py lines 170-173): `for pid in
list(bot_procs.keys()): await cleanup_process(pid)` — the key list is
snapshotted first, then each pid is cleaned up in order. -/
def cleanup_aux : List Nat → Registry → Registry × List CleanupEffect
  | [], reg => (reg, [])
  | p :: rest, reg =>
    let step := cleanup_process reg p
    let restResult := cleanup_aux rest step.1
    (restResult.1, step.2 :: restResult.2)

/-- `cleanup()` run on a registry. -/
def cleanup (reg : Registry) : Registry × List CleanupEffect :=
  cleanup_aux (reg.map (fun e => e.pid)) reg

/-! ## `get_status` (app.py lines 234-259) -/

/-- What `/api/status/{pid}` answers. -/
inductive StatusResp where
  /-- HTTP 404 "Bot not found". -/
  | notFound
  /-- `{"status": "running"}`. -/
  | running
  /-- `{"status": "finished"}`. -/
  | finished
  deriving DecidableEq

/-- `get_status(pid)`: look the pid up in `bot_procs`; 404 when absent;
`"running"` when `poll()` is `None`; otherwise `"finished"` — and in the
finished case `cleanup_process(pid)` is awaited before responding, which
removes the entry. -/
def get_status (reg : Registry) (pid : Nat) : StatusResp × Registry :=
  match reg.find? (fun e => e.pid = pid) with
  | none => (.notFound, reg)
  | some e =>
    if e.alive then (.running, reg)
    else (.finished, (cleanup_process reg pid).1)

/-! ## `get_room_url` (app.py lines 201-232) -/

/-- The `while not url_queue.empty(): url_queue.get_nowait()` drain at
app.py lines 206-207. -/
def drainQueue : UrlQueue → UrlQueue
  | [] => []
  | _ :: xs => drainQueue xs

/-- The Python exceptions `get_room_url`'s `try` block can see. -/
inductive PyExc where
  /-- `fastapi.HTTPException(status_code, detail)`. -/
  | httpExc (status : Nat) (detail : String)
  /-- `TimeoutError(msg)`. -/
  | timeoutError (msg : String)
  deriving DecidableEq

/-- Python `str(e)`: starlette's `HTTPException.__str__` renders
`"{status_code}: {detail}"`; `TimeoutError` renders its message. -/
def strOfExc : PyExc → String
  | .httpExc status detail => toString status ++ ": " ++ detail
  | .timeoutError msg => msg

/-- Which `except` clause of `get_room_url` matches: `except TimeoutError`
(line 227) only matches an actual `TimeoutError`. -/
def isTimeoutError : PyExc → Bool
  | .timeoutError _ => true
  | .httpExc _ _ => false

/-- The HTTP outcome of one `/api/get-room-url` request. -/
structure HandlerResponse where
  /-- HTTP status code of the response. -/
  status : Nat
  /-- `"url"` field of the success JSON. -/
  urlField : Option String
  /-- `"bot_pid"` field of the success JSON. -/
  pidField : Option Nat
  /-- `detail` of the `HTTPException` for error responses. -/
  detail : Option String
  /-- Whether the `except TimeoutError` branch (the 504 response,
  line 227-229) ran. -/
  tookTimeoutBranch : Bool
  /-- The pid passed to `background_tasks.add_task(cleanup_process, pid)`
  (line 214), to be run right after the response is sent. -/
  scheduledCleanup : Option Nat
  deriving DecidableEq

/-- How an exception escaping the `try` body is turned into the final
response: the clauses are tried in order, `except TimeoutError` (504)
then `except Exception` (500 with `str(e)`), app.py lines 227-232. -/
def handleExc (e : PyExc) : HandlerResponse :=
  if isTimeoutError e then
    { status := 504, urlField := none, pidField := none,
      detail := some (strOfExc e), tookTimeoutBranch := true,
      scheduledCleanup := none }
  else
    { status := 500, urlField := none, pidField := none,
      detail := some (strOfExc e), tookTimeoutBranch := false,
      scheduledCleanup := none }

/-- Whether the worker is still running when `run_bot` returns: still
running on success; dead after the exit branch; after the timeout branch,
dead iff the stop signal has already taken effect. -/
def aliveAtReturn (w : WorkerBehavior) : Bool :=
  match loopOutcome w with
  | .gotUrl => true
  | .exited => false
  | .timedOut => !w.diesOnTerm

/-- The `bot_procs` entry a `run_bot` call leaves behind (app.py line
93).  A worker that reacts to the graceful stop signal also dies within
`cleanup_process`'s grace period. -/
def spawnedEntry (pid : Nat) (w : WorkerBehavior) : ProcEntry :=
  { pid := pid, alive := aliveAtReturn w,
    diesWithinGrace := w.diesOnTerm, streamsOpen := true }

/-- The registry after `run_bot` returns: when a worker was spawned its
pid is in `bot_procs` (app.py line 93), whatever happened afterwards; the
entry is never removed by `run_bot` itself. -/
def registry_after_run_bot (env : Env) (reg : Registry) (pid : Nat)
    (w : WorkerBehavior) : Registry :=
  if (missing_vars env).isEmpty then reg ++ [spawnedEntry pid w]
  else reg

/-- `get_room_url` (app.py lines 201-232): drain the queue, call
`run_bot`; on `(url, pid)` schedule `cleanup_process(pid)` as a
post-response background task and answer 200; on `(None, None)` raise
`HTTPException(500, "Failed to generate room URL")` — which, raised
inside the `try`, is itself caught by `except Exception` (there is no
`except HTTPException: raise` clause here) and re-raised as
`HTTPException(500, str(e))`.  Returns the response, the registry after
the call, and the drained queue. -/
def get_room_url (env : Env) (q : UrlQueue) (reg : Registry)
    (roomUrl : Option String) (pid : Nat) (w : WorkerBehavior) :
    HandlerResponse × Registry × UrlQueue :=
  let q' := drainQueue q
  let o := run_bot env roomUrl pid w
  let reg' := registry_after_run_bot env reg pid w
  match o.ret with
  | some (url, p) =>
    ({ status := 200, urlField := some url, pidField := some p,
       detail := none, tookTimeoutBranch := false,
       scheduledCleanup := some p }, reg', q')
  | none =>
    (handleExc (.httpExc 500 "Failed to generate room URL"), reg', q')

/-! ## Concrete inputs used by the claim theorems -/

/-- An environment with every required variable set. -/
def fullEnv : Env := required_vars

/-- A worker that has printed the marker line by the first poll iteration
and keeps running. -/
def promptWorker : WorkerBehavior :=
  { exitStep := none, exitCode := 0, urlStep := some 0,
    url := "https://example.daily.co/abc", diesOnTerm := true }

/-- A worker that never prints the marker, never exits on its own, and
survives the graceful stop signal. -/
def hangingWorker : WorkerBehavior :=
  { exitStep := none, exitCode := 0, urlStep := none, url := "",
    diesOnTerm := false }

/-- A worker that exits with code 1 before printing any marker. -/
def crashingWorker1 : WorkerBehavior :=
  { exitStep := some 0, exitCode := 1, urlStep := none, url := "",
    diesOnTerm := true }

/-- A worker like `crashingWorker1` but exiting with code 2. -/
def crashingWorker2 : WorkerBehavior :=
  { exitStep := some 0, exitCode := 2, urlStep := none, url := "",
    diesOnTerm := true }

/-- A registered process that has already exited. -/
def deadEntry : ProcEntry :=
  { pid := 42, alive := false, diesWithinGrace := true, streamsOpen := true }

/-- A registered process that is alive and ignores the graceful stop. -/
def stubbornEntry : ProcEntry :=
  { pid := 43, alive := true, diesWithinGrace := false, streamsOpen := true }

/-- The number of registered workers whose OS process is currently
running — the spec's count of simultaneously `Running` handles.  (The
code tracks no resource key at all, so this is also the per-key count
for any sequence of calls that all target the same room.) -/
def runningCount (reg : Registry) : Nat :=
  (reg.filter (fun e => e.alive)).length

/-! ## Helper lemmas about the registry operations -/

/-- Whatever branch `cleanup_process` takes, the registry it leaves
behind is the original minus every entry for the popped pid. -/
theorem cleanup_process_fst (reg : Registry) (pid : Nat) :
    (cleanup_process reg pid).1 = reg.filter (fun e => e.pid ≠ pid) := by
  cases hfind : reg.find? (fun e => e.pid = pid) with
  | none =>
    have h : reg.filter (fun e => e.pid ≠ pid) = reg := by
      rw [List.filter_eq_self]
      intro a ha
      have h2 := List.find?_eq_none.mp hfind a ha
      simpa using h2
    rw [h]
    simp [cleanup_process, hfind]
  | some e =>
    simp only [cleanup_process, hfind]
    split <;> [rfl; split <;> rfl]

/-- Filtering a pid out leaves nothing for `find?` to find. -/
theorem find?_filter_ne (reg : Registry) (pid : Nat) :
    (reg.filter (fun e => e.pid ≠ pid)).find? (fun e => e.pid = pid)
      = none := by
  rw [List.find?_eq_none]
  intro x hx
  have hx2 := (List.mem_filter.mp hx).2
  simp only [decide_eq_true_eq] at hx2 ⊢
  simpa using hx2

/-- After `cleanup_aux`, exactly the entries whose pid was in the
snapshot list are gone. -/
theorem cleanup_aux_fst (pids : List Nat) (reg : Registry) :
    (cleanup_aux pids reg).1
      = reg.filter (fun e => !(pids.contains e.pid)) := by
  induction pids generalizing reg with
  | nil => simp [cleanup_aux]
  | cons p rest ih =>
    simp only [cleanup_aux]
    rw [ih, cleanup_process_fst, List.filter_filter]
    apply List.filter_congr
    intro e _
    cases h1 : (e.pid == p) <;> cases h2 : rest.contains e.pid <;>
      simp only [List.contains_cons, h1, h2, Bool.false_or, Bool.true_or,
        Bool.not_false, Bool.not_true, Bool.true_and, Bool.false_and,
        Bool.and_true, Bool.and_false] <;> simp [h2] <;> simpa using h1

/-- `cleanup()` empties the registry. -/
theorem cleanup_registry_empty (reg : Registry) : (cleanup reg).1 = [] := by
  unfold cleanup
  rw [cleanup_aux_fst, List.filter_eq_nil_iff]
  intro e he
  have hmem : e.pid ∈ reg.map (fun x => x.pid) :=
    List.mem_map_of_mem (fun x => x.pid) he
  simpa using hmem

/-! ## Claim theorems -/

/-- **C4** (confirmed): a line containing the marker prefix yields
exactly the substring following the marker with surrounding whitespace
trimmed — `"Join the video call at: https://example.daily.co/abc"`
yields exactly `"https://example.daily.co/abc"`, both in `read_output`
and in `LogInterceptor.__call__` — and a line in which the marker text
appears twice still yields one extracted value and puts exactly one
value on the queue; in general a line contributes one queue element when
it contains the marker and none otherwise. -/
theorem C4_marker_extraction :
    read_output_extract
        "Join the video call at: https://example.daily.co/abc".toList
      = some "https://example.daily.co/abc".toList ∧
    log_interceptor_extract
        "Join the video call at: https://example.daily.co/abc\n".toList
      = some "https://example.daily.co/abc".toList ∧
    read_output_extract
        " Join the video call at: x Join the video call at: https://y ".toList
      = some "https://y".toList ∧
    read_output_step []
        " Join the video call at: x Join the video call at: https://y ".toList
      = ["https://y".toList] ∧
    (∀ (q : UrlQueue) (line : List Char),
      (read_output_step q line).length
        = q.length + (if (read_output_extract line).isSome then 1 else 0)) := by
  refine ⟨by decide, by decide, by decide, by decide, ?_⟩
  intro q line
  unfold read_output_step
  cases read_output_extract line <;> simp [UrlQueue.put]

/-- **C5** (counterexample): the URL channel is a plain FIFO queue, not a
one-shot signal — a second producer `put` is not a no-op (it changes the
queue), and two successive consumers observe two different values, so
producers after the first are not ignored and waiters do not all see one
common terminal outcome. -/
theorem C5_counterexample :
    UrlQueue.put (UrlQueue.put [] "https://a".toList) "https://b".toList
      ≠ UrlQueue.put [] "https://a".toList ∧
    (UrlQueue.put (UrlQueue.put [] "https://a".toList)
        "https://b".toList).getNowait.1 = some "https://a".toList ∧
    ((UrlQueue.put (UrlQueue.put [] "https://a".toList)
        "https://b".toList).getNowait.2).getNowait.1
      = some "https://b".toList ∧
    "https://a".toList ≠ "https://b".toList := by
  refine ⟨by decide, by decide, by decide, by decide⟩

/-- **C5** (amended): every `put` enqueues one more value (later producer
calls are never no-ops), and the at-most-once outcome holds only
per `run_bot` call, by sequential polling: each call with a complete
environment reports exactly one of {URL returned, rejected by exit,
rejected by timeout}. -/
theorem C5_amended_queue_fifo_and_per_call_exclusivity :
    (∀ (q : UrlQueue) (v : List Char),
      (UrlQueue.put q v).length = q.length + 1) ∧
    (∀ (env : Env) (roomUrl : Option String) (pid : Nat)
        (w : WorkerBehavior), (missing_vars env).isEmpty = true →
      ((run_bot env roomUrl pid w).ret.isSome
          ∧ (run_bot env roomUrl pid w).internalError = none)
      ∨ ((run_bot env roomUrl pid w).ret = none
          ∧ (run_bot env roomUrl pid w).internalError
              = some (.exitedUnexpectedly w.exitCode))
      ∨ ((run_bot env roomUrl pid w).ret = none
          ∧ (run_bot env roomUrl pid w).internalError
              = some .timeoutWaitingForUrl)) := by
  constructor
  · intro q v
    simp [UrlQueue.put]
  · intro env roomUrl pid w h
    unfold run_bot
    rw [h]
    cases loopOutcome w <;> simp

/-- **C5** (witness for the amended theorem): a worker that prints the
marker immediately falls in the first branch of the trichotomy. -/
theorem C5_amended_witness :
    ((run_bot fullEnv none 5 promptWorker).ret.isSome
        ∧ (run_bot fullEnv none 5 promptWorker).internalError = none)
    ∨ ((run_bot fullEnv none 5 promptWorker).ret = none
        ∧ (run_bot fullEnv none 5 promptWorker).internalError
            = some (.exitedUnexpectedly promptWorker.exitCode))
    ∨ ((run_bot fullEnv none 5 promptWorker).ret = none
        ∧ (run_bot fullEnv none 5 promptWorker).internalError
            = some .timeoutWaitingForUrl) :=
  C5_amended_queue_fifo_and_per_call_exclusivity.2 fullEnv none 5
    promptWorker (by decide)

/-- **C1** (counterexample): with one worker for "room1" already
`Running` and a configured limit of L = 1, a second `start` call for the
same room still spawns a worker and succeeds — no `AdmissionDenied`, and
the number of simultaneously running workers reaches 2 > 1. -/
theorem C1_counterexample :
    (run_bot fullEnv (some "room1") 100 promptWorker).ret
      = some ("https://example.daily.co/abc", 100) ∧
    (run_bot fullEnv (some "room1") 101 promptWorker).spawned = true ∧
    (run_bot fullEnv (some "room1") 101 promptWorker).ret
      = some ("https://example.daily.co/abc", 101) ∧
    runningCount
      (registry_after_run_bot fullEnv
        (registry_after_run_bot fullEnv [] 100 promptWorker)
        101 promptWorker) = 2 := by
  refine ⟨by decide, by decide, by decide, by decide⟩

/-- **C1** (amended): `run_bot` performs no admission check at all — when
the environment check passes it spawns a worker regardless of the
registry's contents, and every call grows the registry by one entry, so
the count of simultaneously running workers is not bounded by any
configured limit. -/
theorem C1_amended_unconditional_spawn :
    ∀ (env : Env) (reg : Registry) (roomUrl : Option String) (pid : Nat)
      (w : WorkerBehavior), (missing_vars env).isEmpty = true →
      (run_bot env roomUrl pid w).spawned = true ∧
      (registry_after_run_bot env reg pid w).length = reg.length + 1 := by
  intro env reg roomUrl pid w h
  constructor
  · unfold run_bot
    rw [h]
    cases loopOutcome w <;> simp
  · unfold registry_after_run_bot
    rw [h]
    simp

/-- **C1** (witness for the amended theorem): the second call of the
counterexample spawns into a one-entry registry. -/
theorem C1_amended_witness :
    (run_bot fullEnv (some "room1") 101 hangingWorker).spawned = true ∧
    (registry_after_run_bot fullEnv
      (registry_after_run_bot fullEnv [] 100 promptWorker)
      101 hangingWorker).length
      = (registry_after_run_bot fullEnv [] 100 promptWorker).length + 1 :=
  C1_amended_unconditional_spawn fullEnv
    (registry_after_run_bot fullEnv [] 100 promptWorker)
    (some "room1") 101 hangingWorker (by decide)

/-- **C2** (counterexample): a worker that never produces the marker and
never exits drives `run_bot` into the timeout path; the `TimeoutError`
is caught inside `run_bot`, the caller receives `(None, None)` and the
HTTP layer answers 500 — no timeout error reaches the caller — and
`run_bot` returns without awaiting the worker's actual exit. -/
theorem C2_counterexample :
    (run_bot fullEnv none 7 hangingWorker).internalError
      = some .timeoutWaitingForUrl ∧
    (run_bot fullEnv none 7 hangingWorker).ret = none ∧
    (run_bot fullEnv none 7 hangingWorker).waitedForExit = false ∧
    (get_room_url fullEnv [] [] none 7 hangingWorker).1.status = 500 ∧
    (get_room_url fullEnv [] [] none 7 hangingWorker).1.tookTimeoutBranch
      = false := by
  refine ⟨by decide, by decide, by decide, by decide, by decide⟩

/-- **C2** (amended): on every timeout `run_bot` does invoke
`proc.terminate()` (at least once) before returning, but the
`TimeoutError` is swallowed by its own `except` handler: the caller gets
`(None, None)` rather than a timeout error, and the worker's actual exit
is not awaited on this path. -/
theorem C2_amended_terminate_sent_error_swallowed :
    ∀ (env : Env) (roomUrl : Option String) (pid : Nat)
      (w : WorkerBehavior), (missing_vars env).isEmpty = true →
      loopOutcome w = .timedOut →
      1 ≤ (run_bot env roomUrl pid w).terminateCalls ∧
      (run_bot env roomUrl pid w).ret = none ∧
      (run_bot env roomUrl pid w).internalError
        = some .timeoutWaitingForUrl ∧
      (run_bot env roomUrl pid w).waitedForExit = false := by
  intro env roomUrl pid w h hl
  unfold run_bot
  rw [h, hl]
  refine ⟨?_, rfl, rfl, rfl⟩
  cases w.diesOnTerm <;> simp

/-- **C2** (witness for the amended theorem). -/
theorem C2_amended_witness :
    1 ≤ (run_bot fullEnv none 11 hangingWorker).terminateCalls ∧
    (run_bot fullEnv none 11 hangingWorker).ret = none ∧
    (run_bot fullEnv none 11 hangingWorker).internalError
      = some .timeoutWaitingForUrl ∧
    (run_bot fullEnv none 11 hangingWorker).waitedForExit = false :=
  C2_amended_terminate_sent_error_swallowed fullEnv none 11 hangingWorker
    (by decide) (by decide)

/-- **C3** (counterexample): two workers that exit before any marker line
with different exit codes (1 and 2) both make `run_bot` return the same
`(None, None)` — the caller-visible result carries neither the exit code
nor any captured stderr tail, so no `WorkerExitedWithoutResult(exitCode,
stderrTail)` is returned. -/
theorem C3_counterexample :
    (run_bot fullEnv none 8 crashingWorker1).ret = none ∧
    (run_bot fullEnv none 8 crashingWorker1).ret
      = (run_bot fullEnv none 8 crashingWorker2).ret ∧
    crashingWorker1.exitCode ≠ crashingWorker2.exitCode := by
  refine ⟨by decide, by decide, by decide⟩

/-- **C3** (amended): when the worker exits before any marker line,
`run_bot` raises an internal `RuntimeError` that names the exit code
(and logs the remaining stdout/stderr obtained by `communicate()`), but
catches it and returns `(None, None)`: the exit code and stderr tail are
only logged, never returned to the caller. -/
theorem C3_amended_exit_diagnostics_swallowed :
    ∀ (env : Env) (roomUrl : Option String) (pid : Nat)
      (w : WorkerBehavior), (missing_vars env).isEmpty = true →
      loopOutcome w = .exited →
      (run_bot env roomUrl pid w).internalError
        = some (.exitedUnexpectedly w.exitCode) ∧
      (run_bot env roomUrl pid w).ret = none ∧
      (run_bot env roomUrl pid w).waitedForExit = true := by
  intro env roomUrl pid w h hl
  unfold run_bot
  rw [h, hl]
  exact ⟨rfl, rfl, rfl⟩

/-- **C3** (witness for the amended theorem). -/
theorem C3_amended_witness :
    (run_bot fullEnv none 12 crashingWorker1).internalError
      = some (.exitedUnexpectedly crashingWorker1.exitCode) ∧
    (run_bot fullEnv none 12 crashingWorker1).ret = none ∧
    (run_bot fullEnv none 12 crashingWorker1).waitedForExit = true :=
  C3_amended_exit_diagnostics_swallowed fullEnv none 12 crashingWorker1
    (by decide) (by decide)

/-- **C6** (counterexample): `get_status` is not a pure read — querying a
registered process that has exited returns `finished` AND removes the
entry (it awaits `cleanup_process`), so the registry changes and a
repeated identical query, with no change in process liveness, answers
`NotFound` instead. -/
theorem C6_counterexample :
    (get_status [deadEntry] 42).1 = .finished ∧
    (get_status [deadEntry] 42).2 = [] ∧
    (get_status [deadEntry] 42).2 ≠ [deadEntry] ∧
    (get_status ((get_status [deadEntry] 42).2) 42).1 = .notFound := by
  refine ⟨by decide, by decide, by decide, by decide⟩

/-- **C6** (amended): `get_status` answers `NotFound` for an unknown or
already-cleaned-up pid and polls process liveness for a registered one
(`running` if alive, `finished` otherwise, with no exit code and no
`Starting`/`Failed` variants) — but in the `finished` case it also runs
`cleanup_process`, removing the entry, so the query mutates the registry
rather than purely reading it. -/
theorem C6_amended_status_polls_and_cleans_up :
    ∀ (reg : Registry) (pid : Nat),
      (reg.find? (fun e => e.pid = pid) = none →
        get_status reg pid = (.notFound, reg)) ∧
      (∀ e : ProcEntry, reg.find? (fun x => x.pid = pid) = some e →
        (e.alive = true → get_status reg pid = (.running, reg)) ∧
        (e.alive = false →
          (get_status reg pid).1 = .finished ∧
          (get_status reg pid).2.find? (fun x => x.pid = pid) = none)) := by
  intro reg pid
  constructor
  · intro h
    simp [get_status, h]
  · intro e he
    constructor
    · intro ha
      simp [get_status, he, ha]
    · intro ha
      constructor
      · simp [get_status, he, ha]
      · simp [get_status, he, ha, cleanup_process_fst, find?_filter_ne]

/-- **C6** (witness for the amended theorem): the dead entry from the
counterexample exercises the `finished`-and-removed branch. -/
theorem C6_amended_witness :
    (get_status [deadEntry] 42).1 = .finished ∧
    (get_status [deadEntry] 42).2.find? (fun x => x.pid = 42) = none :=
  ((C6_amended_status_polls_and_cleans_up [deadEntry] 42).2 deadEntry
    (by decide)).2 (by decide)

/-- **C7** (counterexample): the timeout-driven termination inside
`run_bot` does NOT follow the termination policy — it sends the stop
signal (twice here) but never waits the grace period, never escalates to
a kill, never awaits the actual exit and never closes the streams before
returning. -/
theorem C7_counterexample :
    (run_bot fullEnv none 9 hangingWorker).internalError
      = some .timeoutWaitingForUrl ∧
    (run_bot fullEnv none 9 hangingWorker).terminateCalls = 2 ∧
    (run_bot fullEnv none 9 hangingWorker).waitedForExit = false ∧
    (run_bot fullEnv none 9 hangingWorker).closedStreams = false := by
  refine ⟨by decide, by decide, by decide, by decide⟩

/-- **C7** (amended): the explicit cleanup path does follow the policy:
for every registered process, `cleanup_process` sends a graceful stop
(only when the process is alive), waits up to the 5-unit grace period,
force-kills when the grace expires, always awaits the actual exit,
closes the streams, and removes the entry; `cleanup()` (shutdown) leaves
the registry empty.  Only the timeout-driven `terminate()` inside
`run_bot` falls short of the policy. -/
theorem C7_amended_cleanup_follows_policy :
    (∀ (reg : Registry) (pid : Nat) (e : ProcEntry),
      reg.find? (fun x => x.pid = pid) = some e →
      (cleanup_process reg pid).2.waitedForExit = true ∧
      (cleanup_process reg pid).2.closedStreams = true ∧
      (cleanup_process reg pid).2.exitedOnReturn = true ∧
      (e.alive = true → (cleanup_process reg pid).2.termSignals = 1) ∧
      (e.alive = true → e.diesWithinGrace = false →
        (cleanup_process reg pid).2.killSignals = 1) ∧
      (cleanup_process reg pid).1.find? (fun x => x.pid = pid) = none) ∧
    (∀ reg : Registry, (cleanup reg).1 = []) := by
  constructor
  · intro reg pid e he
    have hfind : (cleanup_process reg pid).1.find? (fun x => x.pid = pid)
        = none := by
      rw [cleanup_process_fst]
      exact find?_filter_ne reg pid
    cases ha : e.alive with
    | false =>
      refine ⟨?_, ?_, ?_, ?_, ?_, hfind⟩ <;>
        simp [cleanup_process, he, ha]
    | true =>
      cases hg : e.diesWithinGrace with
      | false =>
        refine ⟨?_, ?_, ?_, ?_, ?_, hfind⟩ <;>
          simp [cleanup_process, he, ha, hg]
      | true =>
        refine ⟨?_, ?_, ?_, ?_, ?_, hfind⟩ <;>
          simp [cleanup_process, he, ha, hg]
  · exact cleanup_registry_empty

/-- **C7** (witness for the amended theorem): cleaning up a live,
stop-resistant process kills it, reaps it, closes its streams and
removes it. -/
theorem C7_amended_witness :
    (cleanup_process [stubbornEntry] 43).2.waitedForExit = true ∧
    (cleanup_process [stubbornEntry] 43).2.closedStreams = true ∧
    (cleanup_process [stubbornEntry] 43).2.exitedOnReturn = true ∧
    (cleanup_process [stubbornEntry] 43).2.termSignals = 1 ∧
    (cleanup_process [stubbornEntry] 43).2.killSignals = 1 ∧
    (cleanup_process [stubbornEntry] 43).1.find? (fun x => x.pid = 43)
      = none := by
  have h := (C7_amended_cleanup_follows_policy.1 [stubbornEntry] 43
    stubbornEntry (by decide))
  exact ⟨h.1, h.2.1, h.2.2.1, h.2.2.2.1 (by decide),
    h.2.2.2.2.1 (by decide) (by decide), h.2.2.2.2.2⟩

/-- **C8** (confirmed): termination is idempotent — a second
`cleanup_process` on the same pid finds nothing (`pop` returned `None`),
changes nothing, sends no signal and raises no error; terminating a
process that has already exited naturally sends no stop or kill signal
(`Popen.send_signal` polls first), and no `cleanup_process` call ever
surfaces an error. -/
theorem C8_idempotent_termination :
    (∀ (reg : Registry) (pid : Nat),
      cleanup_process (cleanup_process reg pid).1 pid
        = ((cleanup_process reg pid).1, CleanupEffect.noop)) ∧
    (∀ (reg : Registry) (pid : Nat) (e : ProcEntry),
      reg.find? (fun x => x.pid = pid) = some e → e.alive = false →
      (cleanup_process reg pid).2.termSignals = 0 ∧
      (cleanup_process reg pid).2.killSignals = 0 ∧
      (cleanup_process reg pid).2.errored = false) ∧
    (∀ (reg : Registry) (pid : Nat),
      (cleanup_process reg pid).2.errored = false) := by
  refine ⟨?_, ?_, ?_⟩
  · intro reg pid
    have hfind : (cleanup_process reg pid).1.find? (fun x => x.pid = pid)
        = none := by
      rw [cleanup_process_fst]
      exact find?_filter_ne reg pid
    obtain ⟨r, hr⟩ : ∃ r, (cleanup_process reg pid).1 = r := ⟨_, rfl⟩
    rw [hr] at hfind ⊢
    unfold cleanup_process
    rw [hfind]
  · intro reg pid e he ha
    refine ⟨?_, ?_, ?_⟩ <;> simp [cleanup_process, he, ha]
  · intro reg pid
    unfold cleanup_process
    cases reg.find? (fun e => e.pid = pid) with
    | none => rfl
    | some e =>
      cases ha : e.alive <;> cases hg : e.diesWithinGrace <;>
        simp [ha, hg]

/-- **C8** (witness): terminating the already-exited process sends
nothing and errors nowhere. -/
theorem C8_idempotent_termination_witness :
    (cleanup_process [deadEntry] 42).2.termSignals = 0 ∧
    (cleanup_process [deadEntry] 42).2.killSignals = 0 ∧
    (cleanup_process [deadEntry] 42).2.errored = false :=
  C8_idempotent_termination.2.1 [deadEntry] 42 deadEntry
    (by decide) (by decide)

/-- **C9** (counterexample): a fully successful `start` — worker printed
the marker immediately, `get_room_url` answers 200 with the url and pid,
and a status query at that instant does report `running` — nevertheless
schedules `cleanup_process(pid)` as a post-response background task
(line 214); once that task has run (FastAPI runs it right after the
response is sent) the still-running worker has been terminated and
`status(pid)` reports `NotFound`, not `Running`. -/
theorem C9_counterexample :
    (get_room_url fullEnv [] [] (some "room1") 100 promptWorker).1.status
      = 200 ∧
    (get_room_url fullEnv [] [] (some "room1") 100 promptWorker).1.pidField
      = some 100 ∧
    (get_room_url fullEnv [] [] (some "room1")
        100 promptWorker).1.scheduledCleanup = some 100 ∧
    (get_status
        (get_room_url fullEnv [] [] (some "room1") 100 promptWorker).2.1
        100).1 = .running ∧
    (cleanup_process
        (get_room_url fullEnv [] [] (some "room1") 100 promptWorker).2.1
        100).2.termSignals = 1 ∧
    (get_status
        (cleanup_process
          (get_room_url fullEnv [] [] (some "room1") 100 promptWorker).2.1
          100).1
        100).1 = .notFound := by
  refine ⟨by decide, by decide, by decide, by decide, by decide, by decide⟩

/-- **C9** (amended): on every successful `start` with a fresh pid the
handler returns 200 with `(url, pid)`, the worker is registered and
alive — a status query before the background task runs reports
`running` (there is no stored status field) — but the handler schedules
`cleanup_process(pid)` as a background task, and after it has run a
status query reports `NotFound`. -/
theorem C9_amended_success_then_background_cleanup :
    ∀ (env : Env) (q : UrlQueue) (reg : Registry) (roomUrl : Option String)
      (pid : Nat) (w : WorkerBehavior),
      (missing_vars env).isEmpty = true → loopOutcome w = .gotUrl →
      reg.find? (fun e => e.pid = pid) = none →
      (get_room_url env q reg roomUrl pid w).1.status = 200 ∧
      (get_room_url env q reg roomUrl pid w).1.urlField = some w.url ∧
      (get_room_url env q reg roomUrl pid w).1.pidField = some pid ∧
      (get_room_url env q reg roomUrl pid w).1.scheduledCleanup
        = some pid ∧
      (get_status (get_room_url env q reg roomUrl pid w).2.1 pid).1
        = .running ∧
      (get_status
        (cleanup_process (get_room_url env q reg roomUrl pid w).2.1 pid).1
        pid).1 = .notFound := by
  intro env q reg roomUrl pid w h hl hfresh
  have hret : (run_bot env roomUrl pid w).ret = some (w.url, pid) := by
    unfold run_bot
    rw [h, hl]
    rfl
  have hrb : (get_room_url env q reg roomUrl pid w).1
      = { status := 200, urlField := some w.url, pidField := some pid,
          detail := none, tookTimeoutBranch := false,
          scheduledCleanup := some pid } := by
    simp only [get_room_url]
    rw [hret]
  have halive : aliveAtReturn w = true := by
    unfold aliveAtReturn
    rw [hl]
  have halive2 : spawnedEntry pid w
      = { pid := pid, alive := true,
          diesWithinGrace := w.diesOnTerm, streamsOpen := true } := by
    unfold spawnedEntry
    rw [halive]
  have hreg : (get_room_url env q reg roomUrl pid w).2.1
      = reg ++ [spawnedEntry pid w] := by
    simp only [get_room_url]
    rw [hret]
    simp only [registry_after_run_bot, h, if_true]
  have hfind2 : (reg ++ [spawnedEntry pid w]).find? (fun e => e.pid = pid)
      = some (spawnedEntry pid w) := by
    rw [List.find?_append, hfresh]
    simp [List.find?, spawnedEntry]
  refine ⟨by rw [hrb], by rw [hrb], by rw [hrb], by rw [hrb], ?_, ?_⟩
  · rw [hreg]
    unfold get_status
    rw [hfind2]
    simp [halive2]
  · rw [hreg, cleanup_process_fst]
    have h3 : ((reg ++ [spawnedEntry pid w]).filter
        (fun e => e.pid ≠ pid)).find? (fun e => e.pid = pid) = none :=
      find?_filter_ne _ pid
    unfold get_status
    rw [h3]

/-- **C9** (witness for the amended theorem). -/
theorem C9_amended_witness :
    (get_room_url fullEnv [] [] (some "roomX") 55 promptWorker).1.status
      = 200 ∧
    (get_room_url fullEnv [] [] (some "roomX") 55 promptWorker).1.urlField
      = some promptWorker.url ∧
    (get_room_url fullEnv [] [] (some "roomX") 55 promptWorker).1.pidField
      = some 55 ∧
    (get_room_url fullEnv [] [] (some "roomX")
        55 promptWorker).1.scheduledCleanup = some 55 ∧
    (get_status
        (get_room_url fullEnv [] [] (some "roomX") 55 promptWorker).2.1
        55).1 = .running ∧
    (get_status
        (cleanup_process
          (get_room_url fullEnv [] [] (some "roomX") 55 promptWorker).2.1
          55).1
        55).1 = .notFound :=
  C9_amended_success_then_background_cleanup fullEnv [] [] (some "roomX")
    55 promptWorker (by decide) (by decide) (by decide)

/-- **C10** (confirmed, implicit claim): every failure inside `run_bot` —
missing required environment variable, worker exit without a marker
line, or timeout — becomes a caught internal exception and the return
value `(None, None)`; whenever `run_bot` returns `(None, None)` the
`/api/get-room-url` handler raises `HTTPException(500, "Failed to
generate room URL")` (whose text, re-wrapped by the handler's generic
`except Exception` clause, is the final 500 detail), and the dedicated
`except TimeoutError` 504 branch is never taken. -/
theorem C10_all_failures_surface_as_500 :
    ∀ (env : Env) (q : UrlQueue) (reg : Registry) (roomUrl : Option String)
      (pid : Nat) (w : WorkerBehavior),
      ((missing_vars env).isEmpty = false →
        (run_bot env roomUrl pid w).internalError
          = some (.missingEnv (missing_vars env)) ∧
        (run_bot env roomUrl pid w).ret = none) ∧
      ((missing_vars env).isEmpty = true → loopOutcome w = .exited →
        (run_bot env roomUrl pid w).internalError
          = some (.exitedUnexpectedly w.exitCode) ∧
        (run_bot env roomUrl pid w).ret = none) ∧
      ((missing_vars env).isEmpty = true → loopOutcome w = .timedOut →
        (run_bot env roomUrl pid w).internalError
          = some .timeoutWaitingForUrl ∧
        (run_bot env roomUrl pid w).ret = none) ∧
      ((run_bot env roomUrl pid w).ret = none →
        (get_room_url env q reg roomUrl pid w).1.status = 500 ∧
        (get_room_url env q reg roomUrl pid w).1.tookTimeoutBranch
          = false ∧
        (get_room_url env q reg roomUrl pid w).1.detail
          = some (strOfExc (.httpExc 500 "Failed to generate room URL"))) := by
  intro env q reg roomUrl pid w
  refine ⟨?_, ?_, ?_, ?_⟩
  · intro h
    unfold run_bot
    rw [h]
    exact ⟨rfl, rfl⟩
  · intro h hl
    unfold run_bot
    rw [h, hl]
    exact ⟨rfl, rfl⟩
  · intro h hl
    unfold run_bot
    rw [h, hl]
    exact ⟨rfl, rfl⟩
  · intro hret
    simp only [get_room_url]
    rw [hret]
    exact ⟨rfl, rfl, rfl⟩

/-- **C10** (witness): an empty environment misses every required
variable; `run_bot` returns `(None, None)` and the handler answers 500
with the wrapped detail text, not 504. -/
theorem C10_witness :
    ((run_bot [] none 3 promptWorker).internalError
        = some (.missingEnv (missing_vars [])) ∧
      (run_bot [] none 3 promptWorker).ret = none) ∧
    ((get_room_url [] [] [] none 3 promptWorker).1.status = 500 ∧
      (get_room_url [] [] [] none 3 promptWorker).1.tookTimeoutBranch
        = false ∧
      (get_room_url [] [] [] none 3 promptWorker).1.detail
        = some (strOfExc (.httpExc 500 "Failed to generate room URL"))) :=
  ⟨(C10_all_failures_surface_as_500 [] [] [] none 3 promptWorker).1
      (by decide),
   (C10_all_failures_surface_as_500 [] [] [] none 3 promptWorker).2.2.2
      (by decide)⟩
